import Mathlib

/-!
Shallow embedding of `src/circuitbreaker.py`: the `CircuitBreaker` state
machine, failure-predicate construction, the decorator wrapper, the two
guarded-call entry points, and the `CircuitBreakerMonitor` registry.

Python's `monotonic()` clock is modelled by passing an explicit `now : ℚ`
to each operation that reads the clock.  Exceptions are modelled by a small
concrete class hierarchy (`ExcClass`) with an explicit ancestor list, and an
exception value carries its class plus a payload distinguishing instances.
-/

/-- A small concrete model of the Python exception class hierarchy.
`Exception` is the root; `ConnectionError` is a subclass of `OSError`
to exercise transitive `issubclass`. -/
inductive ExcClass where
  | Exception
  | OSError
  | ConnectionError
  | ValueError
  | TypeError
  | AssertionError
deriving DecidableEq, Repr

/-- Proper ancestors of each class, as in the Python MRO (minus `object`). -/
def ExcClass.parents : ExcClass → List ExcClass
  | .Exception => []
  | .OSError => [.Exception]
  | .ConnectionError => [.OSError, .Exception]
  | .ValueError => [.Exception]
  | .TypeError => [.Exception]
  | .AssertionError => [.Exception]

/-- Python `issubclass(c, d)`: reflexive-transitive subclass check. -/
def issubclass (c d : ExcClass) : Bool :=
  c == d || c.parents.contains d

/-- An exception value: its class and a payload distinguishing instances. -/
structure Exc where
  cls : ExcClass
  payload : Nat
deriving DecidableEq, Repr

/-- The state constants from the source. -/
def STATE_CLOSED : String := "closed"

def STATE_OPEN : String := "open"

def STATE_HALF_OPEN : String := "half_open"

/-- The value returned by a wrapped operation. -/
abbrev Value := Nat

/-- `in_exception_list(*exc_types)`: predicate matching a thrown type that is
a subclass of any listed type (Python `issubclass(thrown_type, exc_types)`
with a tuple second argument). -/
def in_exception_list (exc_types : List ExcClass) : ExcClass → Exc → Bool :=
  fun thrown_type _ => exc_types.any (fun t => issubclass thrown_type t)

/-- The `expected_exception` argument of `build_failure_predicate`, as a tagged
union of the Python value shapes the function distinguishes:
a class that subclasses `Exception`, an iterable of such classes, a plain
string (iterable, but rejected by the assert), or a predicate function. -/
inductive ExpectedException where
  | excType (t : ExcClass)
  | excList (ts : List ExcClass)
  | str (s : String)
  | predicate (f : ExcClass → Exc → Bool)

/-- Python truthiness of an `expected_exception` argument value: an empty
collection or empty string is falsy; classes and functions are truthy. -/
def ExpectedException.isTruthy : ExpectedException → Bool
  | .excList ts => !ts.isEmpty
  | .str s => !s.isEmpty
  | _ => true

/-- `build_failure_predicate(expected_exception)`.  The `.error` results model
the `AssertionError`s raised by the function's asserts; a string is iterable,
so it reaches the string guard and fails loudly there. -/
def build_failure_predicate :
    ExpectedException → Except String (ExcClass → Exc → Bool)
  | .excType t => .ok (fun thrown_type _ => issubclass thrown_type t)
  | .excList ts => .ok (in_exception_list ts)
  | .str _ => .error "expected_exception cannot be a string. Did you mean name?"
  | .predicate f => .ok f

/-- The `CircuitBreaker` instance state.  Fields mirror the Python attributes:
`rawState` is `_state`, `openedAt` is `_opened`; the rest drop the leading
underscore.  A fallback, when configured, is modelled by the value it returns
for the call (argument forwarding is out of scope). -/
structure CircuitBreaker where
  failure_threshold : Nat
  recovery_timeout : ℚ
  is_failure : ExcClass → Exc → Bool
  fallback_function : Option Value
  name : Option String
  last_failure : Option Exc
  failure_count : Nat
  rawState : String
  openedAt : ℚ

/-- Class constant `FAILURE_THRESHOLD = 5`. -/
def CircuitBreaker.FAILURE_THRESHOLD : Nat := 5

/-- Class constant `RECOVERY_TIMEOUT = 30`. -/
def CircuitBreaker.RECOVERY_TIMEOUT : ℚ := 30

/-- `CircuitBreaker.__init__`, with `now` the value of `monotonic()` at
construction.  `x or default` on a falsy argument (None, 0, empty) picks the
class default; `expected_exception or Exception` then feeds
`build_failure_predicate`, whose assertion failures surface as `.error`. -/
def CircuitBreaker.init (failure_threshold : Option Nat)
    (recovery_timeout : Option ℚ) (expected_exception : Option ExpectedException)
    (name : Option String) (fallback_function : Option Value) (now : ℚ) :
    Except String CircuitBreaker :=
  let ee : ExpectedException :=
    match expected_exception with
    | some e => if e.isTruthy then e else .excType .Exception
    | none => .excType .Exception
  match build_failure_predicate ee with
  | .error msg => .error msg
  | .ok p =>
      .ok { last_failure := none
            failure_count := 0
            failure_threshold :=
              match failure_threshold with
              | some t => if t == 0 then CircuitBreaker.FAILURE_THRESHOLD else t
              | none => CircuitBreaker.FAILURE_THRESHOLD
            recovery_timeout :=
              match recovery_timeout with
              | some r => if r == 0 then CircuitBreaker.RECOVERY_TIMEOUT else r
              | none => CircuitBreaker.RECOVERY_TIMEOUT
            is_failure := p
            fallback_function := fallback_function
            name := name
            rawState := STATE_CLOSED
            openedAt := now }

/-- `__call_succeeded`: close the circuit, clear the last failure, reset the
failure count. -/
def CircuitBreaker.call_succeeded (cb : CircuitBreaker) : CircuitBreaker :=
  { cb with rawState := STATE_CLOSED, last_failure := none, failure_count := 0 }

/-- `__call_failed`: count the failure and open the circuit (stamping
`_opened = monotonic()`) once the threshold is reached. -/
def CircuitBreaker.call_failed (cb : CircuitBreaker) (now : ℚ) : CircuitBreaker :=
  let cb' := { cb with failure_count := cb.failure_count + 1 }
  if cb'.failure_count ≥ cb'.failure_threshold then
    { cb' with rawState := STATE_OPEN, openedAt := now }
  else
    cb'

/-- `open_remaining`: seconds until the breaker leaves OPEN, rounded with
`ceil` when positive and `floor` otherwise. -/
def CircuitBreaker.open_remaining (cb : CircuitBreaker) (now : ℚ) : Int :=
  let remain : ℚ := (cb.openedAt + cb.recovery_timeout) - now
  if remain > 0 then ⌈remain⌉ else ⌊remain⌋

/-- The `state` property: effective state, derived lazily from the stored
state and the elapsed time. -/
def CircuitBreaker.state (cb : CircuitBreaker) (now : ℚ) : String :=
  if cb.rawState == STATE_OPEN && cb.open_remaining now ≤ 0 then
    STATE_HALF_OPEN
  else
    cb.rawState

/-- The `closed` property. -/
def CircuitBreaker.closed (cb : CircuitBreaker) (now : ℚ) : Bool :=
  cb.state now == STATE_CLOSED

/-- The `opened` property. -/
def CircuitBreaker.opened (cb : CircuitBreaker) (now : ℚ) : Bool :=
  cb.state now == STATE_OPEN

/-- `__exit__(exc_type, exc_value, _tb)`: classify the outcome of the guarded
body and apply the success or failure transition.  It returns `False` in
Python, so any exception is re-raised unchanged; re-raising is modelled at the
call sites. -/
def CircuitBreaker.exit (cb : CircuitBreaker) (exc : Option Exc) (now : ℚ) :
    CircuitBreaker :=
  match exc with
  | some e =>
      if cb.is_failure e.cls e then
        ({ cb with last_failure := some e }).call_failed now
      else
        cb.call_succeeded
  | none => cb.call_succeeded

/-- Result of a guarded call as seen by the caller. -/
inductive CallResult where
  | ok (v : Value)
  | raised (e : Exc)
  | breakerOpen
deriving DecidableEq, Repr

/-- Behaviour of a wrapped plain operation at this call: it either returns a
value or raises an exception. -/
abbrev OpBehavior := Except Exc Value

/-- `CircuitBreaker.call(func, *args)`: run the operation inside
`with self:`.  The body's outcome goes through `__exit__`; since `__exit__`
returns `False`, a raised exception propagates to the caller after the
bookkeeping.  Note there is no guard check here. -/
def CircuitBreaker.call (cb : CircuitBreaker) (now : ℚ) (op : OpBehavior) :
    CallResult × CircuitBreaker :=
  match op with
  | .ok v => (.ok v, cb.exit none now)
  | .error e => (.raised e, cb.exit (some e) now)

/-- Behaviour of a wrapped generator operation at this call: the elements it
yields, then either exhaustion (`tail = none`) or a raised exception. -/
structure GenBehavior where
  elements : List Value
  tail : Option Exc

/-- `CircuitBreaker.call_generator(func, *args)`: forward the sequence
element-by-element inside `with self:`; the transition applies when the
sequence is exhausted or interrupted, and an interrupting exception
back-propagates after the bookkeeping.  No guard check here either. -/
def CircuitBreaker.call_generator (cb : CircuitBreaker) (now : ℚ)
    (g : GenBehavior) : List Value × Option Exc × CircuitBreaker :=
  match g.tail with
  | none => (g.elements, none, cb.exit none now)
  | some e => (g.elements, some e, cb.exit (some e) now)

/-- Outcome of one call through the decorator `wrapper`: what the caller
gets back, the breaker state afterwards, and whether the wrapped operation
was invoked. -/
structure GuardedOutcome where
  result : CallResult
  breaker : CircuitBreaker
  invoked : Bool

/-- The `wrapper` closure produced by `decorate`: if the effective state is
OPEN the call is routed to the fallback or rejected with
`CircuitBreakerError`, without touching the operation or the state; otherwise
it delegates to `call`. -/
def CircuitBreaker.wrapper (cb : CircuitBreaker) (now : ℚ) (op : OpBehavior) :
    GuardedOutcome :=
  if cb.opened now then
    match cb.fallback_function with
    | some v => { result := .ok v, breaker := cb, invoked := false }
    | none => { result := .breakerOpen, breaker := cb, invoked := false }
  else
    { result := (cb.call now op).1, breaker := (cb.call now op).2, invoked := true }

/-- `n` consecutive guarded calls through the wrapper, the `k`-th raising the
exception `es k`, all at clock value `now`. -/
def iterateCalls (cb : CircuitBreaker) (now : ℚ) (es : Nat → Exc) :
    Nat → CircuitBreaker
  | 0 => cb
  | n + 1 => ((iterateCalls cb now es n).wrapper now (.error (es n))).breaker

/-- The `CircuitBreakerMonitor` registry: the values of its
`circuit_breakers` dict. -/
abbrev Monitor := List CircuitBreaker

/-- `CircuitBreakerMonitor.get_open`: breakers whose effective state is OPEN. -/
def CircuitBreakerMonitor.get_open (m : Monitor) (now : ℚ) : List CircuitBreaker :=
  m.filter (fun c => c.opened now)

/-- `CircuitBreakerMonitor.get_closed`: breakers whose effective state is
CLOSED. -/
def CircuitBreakerMonitor.get_closed (m : Monitor) (now : ℚ) : List CircuitBreaker :=
  m.filter (fun c => c.closed now)

/-- `CircuitBreakerMonitor.all_closed`: true iff no breaker is effectively
open. -/
def CircuitBreakerMonitor.all_closed (m : Monitor) (now : ℚ) : Bool :=
  (CircuitBreakerMonitor.get_open m now).length == 0

/-! Concrete instances used to exercise the model. -/

/-- A `ValueError` instance. -/
def excV : Exc := ⟨.ValueError, 0⟩

/-- A `TypeError` instance. -/
def excT : Exc := ⟨.TypeError, 7⟩

/-- The rational 2.3. -/
def q23over10 : ℚ := ⟨23, 10, by decide, by decide⟩

/-- The rational 3.3. -/
def q33over10 : ℚ := ⟨33, 10, by decide, by decide⟩

/-- A closed breaker counting only `ValueError`s, one failure recorded. -/
def cbC1 : CircuitBreaker :=
  { failure_threshold := 5, recovery_timeout := 30
    is_failure := fun t _ => issubclass t .ValueError
    fallback_function := none, name := some "c1", last_failure := some excV
    failure_count := 1, rawState := STATE_CLOSED, openedAt := 0 }

/-- A freshly constructed breaker: threshold 3, timeout 10, match-all. -/
def cbFresh : CircuitBreaker :=
  { failure_threshold := 3, recovery_timeout := 10
    is_failure := fun t _ => issubclass t .Exception
    fallback_function := none, name := some "fresh", last_failure := none
    failure_count := 0, rawState := STATE_CLOSED, openedAt := 0 }

/-- `cbFresh` after tripping: stored state OPEN since time 0. -/
def cbTripped : CircuitBreaker :=
  { cbFresh with failure_count := 3, rawState := STATE_OPEN
                 last_failure := some excV }

/-- An open breaker whose recovery window is 2.3 seconds. -/
def cbRound : CircuitBreaker :=
  { cbFresh with recovery_timeout := q23over10, rawState := STATE_OPEN }

/-- An open breaker whose recovery window is 1 second. -/
def cbRound2 : CircuitBreaker :=
  { cbFresh with recovery_timeout := 1, rawState := STATE_OPEN }

/-! Helper lemmas about the derived state. -/

lemma open_remaining_pos (cb : CircuitBreaker) (now : ℚ)
    (h : now < cb.openedAt + cb.recovery_timeout) : 0 < cb.open_remaining now := by
  have hr : (0 : ℚ) < cb.openedAt + cb.recovery_timeout - now := by linarith
  unfold CircuitBreaker.open_remaining
  rw [if_pos hr]
  exact Int.ceil_pos.mpr hr

lemma open_remaining_nonpos (cb : CircuitBreaker) (now : ℚ)
    (h : cb.openedAt + cb.recovery_timeout ≤ now) : cb.open_remaining now ≤ 0 := by
  have hr : cb.openedAt + cb.recovery_timeout - now ≤ 0 := by linarith
  unfold CircuitBreaker.open_remaining
  rw [if_neg (by simpa using not_lt.mpr hr)]
  calc ⌊cb.openedAt + cb.recovery_timeout - now⌋ ≤ ⌊(0 : ℚ)⌋ := Int.floor_le_floor hr
    _ = 0 := Int.floor_zero

lemma state_of_rawClosed (cb : CircuitBreaker) (now : ℚ)
    (h : cb.rawState = STATE_CLOSED) : cb.state now = STATE_CLOSED := by
  unfold CircuitBreaker.state
  rw [h]
  simp [STATE_CLOSED, STATE_OPEN]

lemma state_of_rawOpen_pos (cb : CircuitBreaker) (now : ℚ)
    (h : cb.rawState = STATE_OPEN) (hp : 0 < cb.open_remaining now) :
    cb.state now = STATE_OPEN := by
  unfold CircuitBreaker.state
  rw [h]
  simp [not_le.mpr hp]

lemma state_of_rawOpen_nonpos (cb : CircuitBreaker) (now : ℚ)
    (h : cb.rawState = STATE_OPEN) (hp : cb.open_remaining now ≤ 0) :
    cb.state now = STATE_HALF_OPEN := by
  unfold CircuitBreaker.state
  rw [h]
  simp [hp]

lemma opened_false_of_state_ne (cb : CircuitBreaker) (now : ℚ)
    (h : cb.state now ≠ STATE_OPEN) : cb.opened now = false := by
  unfold CircuitBreaker.opened
  simpa using h

lemma opened_true_of_state_eq (cb : CircuitBreaker) (now : ℚ)
    (h : cb.state now = STATE_OPEN) : cb.opened now = true := by
  unfold CircuitBreaker.opened
  simp [h]

lemma wrapper_of_not_opened (cb : CircuitBreaker) (now : ℚ) (op : OpBehavior)
    (h : cb.opened now = false) :
    cb.wrapper now op =
      { result := (cb.call now op).1, breaker := (cb.call now op).2,
        invoked := true } := by
  unfold CircuitBreaker.wrapper
  rw [h]
  simp

lemma exit_classified (cb : CircuitBreaker) (e : Exc) (now : ℚ)
    (h : cb.is_failure e.cls e = true) :
    cb.exit (some e) now = ({ cb with last_failure := some e }).call_failed now := by
  simp [CircuitBreaker.exit, h]

lemma exit_unclassified (cb : CircuitBreaker) (e : Exc) (now : ℚ)
    (h : cb.is_failure e.cls e = false) :
    cb.exit (some e) now = cb.call_succeeded := by
  simp [CircuitBreaker.exit, h]

lemma call_failed_below (cb : CircuitBreaker) (now : ℚ)
    (h : cb.failure_count + 1 < cb.failure_threshold) :
    cb.call_failed now = { cb with failure_count := cb.failure_count + 1 } := by
  simp only [CircuitBreaker.call_failed]
  rw [if_neg (by omega)]

lemma call_failed_at (cb : CircuitBreaker) (now : ℚ)
    (h : cb.failure_count + 1 ≥ cb.failure_threshold) :
    cb.call_failed now =
      { cb with failure_count := cb.failure_count + 1,
                rawState := STATE_OPEN, openedAt := now } := by
  simp only [CircuitBreaker.call_failed]
  rw [if_pos (by omega)]

/-! Claim theorems. -/

/-- C1, counterexample: the claim says an unclassified failure leaves
`failureCount` and `lastFailure` unchanged, but a guarded call on `cbC1`
(one recorded failure, classifier matching only `ValueError`) that raises a
`TypeError` resets the count from 1 to 0 and clears the last failure. -/
theorem C1_counterexample :
    ((cbC1.wrapper 0 (.error excT)).breaker.failure_count = 0 ∧
      cbC1.failure_count = 1) ∧
    ((cbC1.wrapper 0 (.error excT)).breaker.last_failure = none ∧
      cbC1.last_failure = some excV) := by
  decide

/-- C1, amended: a guarded call that raises a failure NOT matched by the
configured predicate re-raises the failure unchanged to the caller, but is
booked as a success: the stored state is set to CLOSED, `failureCount` is
reset to 0 and `lastFailure` is cleared (`openedAt` is unchanged). -/
theorem C1_unclassified_failure (cb : CircuitBreaker) (now : ℚ) (e : Exc)
    (hop : cb.opened now = false) (hcls : cb.is_failure e.cls e = false) :
    (cb.wrapper now (.error e)).result = .raised e ∧
    (cb.wrapper now (.error e)).breaker =
      { cb with rawState := STATE_CLOSED, last_failure := none,
                failure_count := 0 } := by
  rw [wrapper_of_not_opened cb now (.error e) hop]
  refine ⟨rfl, ?_⟩
  show (cb.call now (.error e)).2 = _
  show cb.exit (some e) now = _
  rw [exit_unclassified cb e now hcls]
  rfl

/-- C1 witness: the amended claim at `cbC1` with a `TypeError` at time 0. -/
theorem C1_unclassified_failure_witness :
    (cbC1.wrapper 0 (.error excT)).result = .raised excT ∧
    (cbC1.wrapper 0 (.error excT)).breaker =
      { cbC1 with rawState := STATE_CLOSED, last_failure := none,
                  failure_count := 0 } :=
  C1_unclassified_failure cbC1 0 excT (by decide) (by decide)

/-- C3: while the effective state is OPEN, the decorator wrapper does not
invoke the operation and does not change the breaker; it returns the
fallback's result when one is configured and otherwise raises
`CircuitBreakerError`. -/
theorem C3_open_rejects (cb : CircuitBreaker) (now : ℚ) (op : OpBehavior)
    (h : cb.state now = STATE_OPEN) :
    (cb.wrapper now op).invoked = false ∧
    (cb.wrapper now op).breaker = cb ∧
    (cb.wrapper now op).result =
      (match cb.fallback_function with
       | some v => CallResult.ok v
       | none => CallResult.breakerOpen) := by
  have hop : cb.opened now = true := opened_true_of_state_eq cb now h
  unfold CircuitBreaker.wrapper
  rw [hop]
  cases hf : cb.fallback_function <;> simp [hf]

unseal Rat.add Rat.sub in
/-- C3 witness: `cbTripped` at time 5 is still effectively OPEN. -/
theorem C3_open_rejects_witness :
    (cbTripped.wrapper 5 (.ok 7)).invoked = false ∧
    (cbTripped.wrapper 5 (.ok 7)).breaker = cbTripped ∧
    (cbTripped.wrapper 5 (.ok 7)).result =
      (match cbTripped.fallback_function with
       | some v => CallResult.ok v
       | none => CallResult.breakerOpen) :=
  C3_open_rejects cbTripped 5 (.ok 7) (by decide)

/-- C4: with the stored state OPEN, reading `state` reports OPEN while
`now < openedAt + recoveryTimeout` and HALF_OPEN once
`now ≥ openedAt + recoveryTimeout`; the read is a pure function, and the
effective state depends only on `(rawState, openedAt, recoveryTimeout, now)`. -/
theorem C4_lazy_half_open (cb : CircuitBreaker) (now : ℚ)
    (hraw : cb.rawState = STATE_OPEN) :
    (now < cb.openedAt + cb.recovery_timeout → cb.state now = STATE_OPEN) ∧
    (cb.openedAt + cb.recovery_timeout ≤ now → cb.state now = STATE_HALF_OPEN) ∧
    (∀ cb' : CircuitBreaker, cb'.rawState = cb.rawState →
      cb'.openedAt = cb.openedAt → cb'.recovery_timeout = cb.recovery_timeout →
      cb'.state now = cb.state now) := by
  refine ⟨?_, ?_, ?_⟩
  · intro h
    exact state_of_rawOpen_pos cb now hraw (open_remaining_pos cb now h)
  · intro h
    exact state_of_rawOpen_nonpos cb now hraw (open_remaining_nonpos cb now h)
  · intro cb' h1 h2 h3
    unfold CircuitBreaker.state CircuitBreaker.open_remaining
    rw [h1, h2, h3]

/-- C4 witness: `cbTripped` (opened at 0, timeout 10) observed at time 5. -/
theorem C4_lazy_half_open_witness :
    (5 < cbTripped.openedAt + cbTripped.recovery_timeout →
      cbTripped.state 5 = STATE_OPEN) ∧
    (cbTripped.openedAt + cbTripped.recovery_timeout ≤ 5 →
      cbTripped.state 5 = STATE_HALF_OPEN) ∧
    (∀ cb' : CircuitBreaker, cb'.rawState = cbTripped.rawState →
      cb'.openedAt = cbTripped.openedAt →
      cb'.recovery_timeout = cbTripped.recovery_timeout →
      cb'.state 5 = cbTripped.state 5) :=
  C4_lazy_half_open cbTripped 5 (by decide)

/-- C5: a single guarded call from CLOSED or effectively HALF_OPEN that
completes without a classified failure stores CLOSED, resets `failureCount`
to 0 and clears `lastFailure`. -/
theorem C5_success_resets (cb : CircuitBreaker) (now : ℚ) (op : OpBehavior)
    (hst : cb.state now = STATE_CLOSED ∨ cb.state now = STATE_HALF_OPEN)
    (hok : ∀ e, op = .error e → cb.is_failure e.cls e = false) :
    (cb.wrapper now op).breaker.rawState = STATE_CLOSED ∧
    (cb.wrapper now op).breaker.failure_count = 0 ∧
    (cb.wrapper now op).breaker.last_failure = none := by
  have hop : cb.opened now = false := by
    refine opened_false_of_state_ne cb now ?_
    rcases hst with h | h <;> rw [h] <;> decide
  rw [wrapper_of_not_opened cb now op hop]
  cases op with
  | ok v => exact ⟨rfl, rfl, rfl⟩
  | error e =>
      show (cb.exit (some e) now).rawState = _ ∧
        (cb.exit (some e) now).failure_count = _ ∧
        (cb.exit (some e) now).last_failure = _
      rw [exit_unclassified cb e now (hok e rfl)]
      exact ⟨rfl, rfl, rfl⟩

unseal Rat.add Rat.sub in
/-- C5 witness: `cbTripped` at time 11 is effectively HALF_OPEN; a
successful call resets it. -/
theorem C5_success_resets_witness :
    (cbTripped.wrapper 11 (.ok 7)).breaker.rawState = STATE_CLOSED ∧
    (cbTripped.wrapper 11 (.ok 7)).breaker.failure_count = 0 ∧
    (cbTripped.wrapper 11 (.ok 7)).breaker.last_failure = none :=
  C5_success_resets cbTripped 11 (.ok 7) (Or.inr (by decide)) (by simp)

lemma iterate_closed_phase (cb : CircuitBreaker) (now : ℚ) (es : Nat → Exc)
    (hraw : cb.rawState = STATE_CLOSED) (hcnt : cb.failure_count = 0)
    (hcls : ∀ k, cb.is_failure (es k).cls (es k) = true) :
    ∀ k, k < cb.failure_threshold →
      (iterateCalls cb now es k).rawState = STATE_CLOSED ∧
      (iterateCalls cb now es k).failure_count = k ∧
      (iterateCalls cb now es k).failure_threshold = cb.failure_threshold ∧
      (iterateCalls cb now es k).recovery_timeout = cb.recovery_timeout ∧
      (iterateCalls cb now es k).is_failure = cb.is_failure := by
  intro k
  induction k with
  | zero => exact fun _ => ⟨hraw, hcnt, rfl, rfl, rfl⟩
  | succ n ih =>
      intro hlt
      obtain ⟨h1, h2, h3, h4, h5⟩ := ih (Nat.lt_of_succ_lt hlt)
      have hop : (iterateCalls cb now es n).opened now = false := by
        apply opened_false_of_state_ne
        rw [state_of_rawClosed _ now h1]
        decide
      have hstep : iterateCalls cb now es (n + 1) =
          { iterateCalls cb now es n with
            last_failure := some (es n),
            failure_count := (iterateCalls cb now es n).failure_count + 1 } := by
        show ((iterateCalls cb now es n).wrapper now (.error (es n))).breaker = _
        rw [wrapper_of_not_opened _ now _ hop]
        show (iterateCalls cb now es n).exit (some (es n)) now = _
        rw [exit_classified _ _ now (by rw [h5]; exact hcls n)]
        rw [call_failed_below
          { iterateCalls cb now es n with last_failure := some (es n) } now
          (show (iterateCalls cb now es n).failure_count + 1 <
              (iterateCalls cb now es n).failure_threshold by omega)]
      refine ⟨?_, ?_, ?_, ?_, ?_⟩ <;> rw [hstep]
      · exact h1
      · show (iterateCalls cb now es n).failure_count + 1 = n + 1
        omega
      · exact h3
      · exact h4
      · exact h5

/-- C2: starting CLOSED with count 0, `N = failureThreshold` consecutive
guarded calls each raising a classified failure leave the breaker effectively
OPEN with `failureCount = N`; after any `k < N` such failures the stored
state is still CLOSED and the count is `k`. -/
theorem C2_threshold_trips (cb : CircuitBreaker) (now : ℚ) (es : Nat → Exc)
    (hraw : cb.rawState = STATE_CLOSED) (hcnt : cb.failure_count = 0)
    (hcls : ∀ k, cb.is_failure (es k).cls (es k) = true)
    (hN : 0 < cb.failure_threshold) (htm : 0 < cb.recovery_timeout) :
    ((iterateCalls cb now es cb.failure_threshold).state now = STATE_OPEN ∧
     (iterateCalls cb now es cb.failure_threshold).failure_count =
       cb.failure_threshold) ∧
    ∀ k, k < cb.failure_threshold →
      (iterateCalls cb now es k).rawState = STATE_CLOSED ∧
      (iterateCalls cb now es k).failure_count = k := by
  have inv := iterate_closed_phase cb now es hraw hcnt hcls
  constructor
  · obtain ⟨M, hM⟩ : ∃ M, cb.failure_threshold = M + 1 :=
      ⟨cb.failure_threshold - 1, by omega⟩
    obtain ⟨h1, h2, h3, h4, h5⟩ := inv M (by omega)
    have hop : (iterateCalls cb now es M).opened now = false := by
      apply opened_false_of_state_ne
      rw [state_of_rawClosed _ now h1]
      decide
    have hstep : iterateCalls cb now es (M + 1) =
        { iterateCalls cb now es M with
          last_failure := some (es M),
          failure_count := (iterateCalls cb now es M).failure_count + 1,
          rawState := STATE_OPEN, openedAt := now } := by
      show ((iterateCalls cb now es M).wrapper now (.error (es M))).breaker = _
      rw [wrapper_of_not_opened _ now _ hop]
      show (iterateCalls cb now es M).exit (some (es M)) now = _
      rw [exit_classified _ _ now (by rw [h5]; exact hcls M)]
      rw [call_failed_at
        { iterateCalls cb now es M with last_failure := some (es M) } now
        (show (iterateCalls cb now es M).failure_count + 1 ≥
            (iterateCalls cb now es M).failure_threshold by omega)]
    rw [hM, hstep]
    constructor
    · apply state_of_rawOpen_pos _ now rfl
      apply open_remaining_pos
      show now < now + (iterateCalls cb now es M).recovery_timeout
      rw [h4]
      linarith
    · show (iterateCalls cb now es M).failure_count + 1 = M + 1
      omega
  · intro k hk
    obtain ⟨h1, h2, _, _, _⟩ := inv k hk
    exact ⟨h1, h2⟩

/-- C2 witness: `cbFresh` (threshold 3) tripped by three `ValueError`s. -/
theorem C2_threshold_trips_witness :
    ((iterateCalls cbFresh 0 (fun _ => excV) cbFresh.failure_threshold).state 0 =
        STATE_OPEN ∧
     (iterateCalls cbFresh 0 (fun _ => excV) cbFresh.failure_threshold).failure_count =
        cbFresh.failure_threshold) ∧
    ∀ k, k < cbFresh.failure_threshold →
      (iterateCalls cbFresh 0 (fun _ => excV) k).rawState = STATE_CLOSED ∧
      (iterateCalls cbFresh 0 (fun _ => excV) k).failure_count = k :=
  C2_threshold_trips cbFresh 0 (fun _ => excV) rfl rfl
    (by intro k; show cbFresh.is_failure excV.cls excV = true; decide)
    (by decide) (by decide)

unseal Rat.add Rat.sub in
/-- C6, counterexample: `cbTripped` is effectively OPEN at time 5, yet the
plain-call entry point `call` still invokes the operation — it returns the
operation's result (and even books a success, closing the breaker) instead of
raising the breaker-open signal. -/
theorem C6_counterexample :
    cbTripped.state 5 = STATE_OPEN ∧
    (cbTripped.call 5 (.ok 7)).1 = CallResult.ok 7 ∧
    (cbTripped.call 5 (.ok 7)).1 ≠ CallResult.breakerOpen ∧
    (cbTripped.call 5 (.ok 7)).2.rawState = STATE_CLOSED :=
  ⟨by decide, rfl, by decide, rfl⟩

/-- C6, amended: `call` and `call_generator` contain no guard: they always
run the operation and apply the success/failure bookkeeping, returning the
operation's result/sequence (or re-raising its exception) and never the
breaker-open signal, even while the breaker is effectively OPEN; the
breaker-open error is raised by the decorator wrapper, which rejects the
call before delegating to the entry points. -/
theorem C6_entry_points (cb : CircuitBreaker) (now : ℚ) (op : OpBehavior)
    (g : GenBehavior) (hop : cb.opened now = true)
    (hfb : cb.fallback_function = none) :
    ((cb.call now op).1 = match op with
      | .ok v => CallResult.ok v
      | .error e => CallResult.raised e) ∧
    (cb.call now op).1 ≠ CallResult.breakerOpen ∧
    (cb.call_generator now g).1 = g.elements ∧
    (cb.call_generator now g).2.1 = g.tail ∧
    (cb.wrapper now op).result = CallResult.breakerOpen ∧
    (cb.wrapper now op).invoked = false := by
  refine ⟨?_, ?_, ?_, ?_, ?_, ?_⟩
  · cases op <;> rfl
  · cases op <;> simp [CircuitBreaker.call]
  · cases hg : g.tail <;> simp [CircuitBreaker.call_generator, hg]
  · cases hg : g.tail <;> simp [CircuitBreaker.call_generator, hg]
  · simp [CircuitBreaker.wrapper, hop, hfb]
  · simp [CircuitBreaker.wrapper, hop, hfb]

unseal Rat.add Rat.sub in
/-- C6 witness: the amended claim at `cbTripped`, time 5, a plain operation
returning 7 and a generator yielding two elements. -/
theorem C6_entry_points_witness :
    ((cbTripped.call 5 (.ok 7)).1 = match (Except.ok 7 : OpBehavior) with
      | .ok v => CallResult.ok v
      | .error e => CallResult.raised e) ∧
    (cbTripped.call 5 (.ok 7)).1 ≠ CallResult.breakerOpen ∧
    (cbTripped.call_generator 5 ⟨[1, 2], none⟩).1 = ([1, 2] : List Value) ∧
    (cbTripped.call_generator 5 ⟨[1, 2], none⟩).2.1 = none ∧
    (cbTripped.wrapper 5 (.ok 7)).result = CallResult.breakerOpen ∧
    (cbTripped.wrapper 5 (.ok 7)).invoked = false :=
  C6_entry_points cbTripped 5 (.ok 7) ⟨[1, 2], none⟩ (by decide) rfl

unseal Rat.add Rat.sub in
/-- C7: `openRemaining` equals `ceil(remaining)` when `remaining > 0` and
`floor(remaining)` otherwise, with `remaining = openedAt + recoveryTimeout -
now`; concretely, `remaining = 2.3` yields 3 and `remaining = -2.3`
yields -3. -/
theorem C7_open_remaining_rounding (cb : CircuitBreaker) (now : ℚ) :
    cb.open_remaining now =
      (if cb.openedAt + cb.recovery_timeout - now > 0 then
        ⌈cb.openedAt + cb.recovery_timeout - now⌉
      else ⌊cb.openedAt + cb.recovery_timeout - now⌋) ∧
    cbRound.open_remaining 0 = 3 ∧
    cbRound2.open_remaining q33over10 = -3 :=
  ⟨rfl, by decide, by decide⟩

/-- C8, counterexample: the claim says every string classifier is rejected
at construction, but the empty string is falsy, so `expected_exception or
Exception` silently replaces it with the default and construction succeeds. -/
theorem C8_counterexample :
    (CircuitBreaker.init none none (some (.str "")) none none 0).isOk = true :=
  rfl

/-- C8, amended: for every non-empty string supplied as the failure
classifier, construction fails with the descriptive configuration error
instead of iterating the string's characters; the empty string is falsy and
silently replaced by the match-all default. -/
theorem C8_string_rejected (ft : Option Nat) (rt : Option ℚ)
    (nm : Option String) (fb : Option Value) (now : ℚ) (s : String)
    (h : s ≠ "") :
    CircuitBreaker.init ft rt (some (.str s)) nm fb now =
      .error "expected_exception cannot be a string. Did you mean name?" := by
  have hse : s.isEmpty = false := by
    cases hb : s.isEmpty with
    | false => rfl
    | true => exact absurd ((String.isEmpty_iff s).mp hb) h
  have ht : (ExpectedException.str s).isTruthy = true := by
    simp [ExpectedException.isTruthy, hse]
  unfold CircuitBreaker.init
  simp [ht, build_failure_predicate]

/-- C8 witness: the amended claim at the spec's example string. -/
theorem C8_string_rejected_witness :
    CircuitBreaker.init none none (some (.str "SomeError")) none none 0 =
      .error "expected_exception cannot be a string. Did you mean name?" :=
  C8_string_rejected none none none none 0 "SomeError" (by decide)

/-- C9: a registered breaker whose effective state is HALF_OPEN appears in
neither `get_open` nor `get_closed`; and since `all_closed` only checks that
no breaker is effectively OPEN, it returns true even while such a half-open
breaker exists. -/
theorem C9_half_open_unlisted (m : Monitor) (now : ℚ) (cb : CircuitBreaker)
    (_hmem : cb ∈ m) (hho : cb.state now = STATE_HALF_OPEN)
    (hall : ∀ c ∈ m, c.state now ≠ STATE_OPEN) :
    cb ∉ CircuitBreakerMonitor.get_open m now ∧
    cb ∉ CircuitBreakerMonitor.get_closed m now ∧
    CircuitBreakerMonitor.all_closed m now = true := by
  have hopf : cb.opened now = false :=
    opened_false_of_state_ne cb now (by rw [hho]; decide)
  have hclf : cb.closed now = false := by
    unfold CircuitBreaker.closed
    rw [hho]
    decide
  refine ⟨?_, ?_, ?_⟩
  · intro hIn
    have hp := (List.mem_filter.mp hIn).2
    rw [hopf] at hp
    simp at hp
  · intro hIn
    have hp := (List.mem_filter.mp hIn).2
    rw [hclf] at hp
    simp at hp
  · unfold CircuitBreakerMonitor.all_closed
    have hnil : CircuitBreakerMonitor.get_open m now = [] := by
      unfold CircuitBreakerMonitor.get_open
      refine List.filter_eq_nil_iff.mpr ?_
      intro c hc
      have := opened_false_of_state_ne c now (hall c hc)
      simp [this]
    rw [hnil]
    rfl

unseal Rat.add Rat.sub in
/-- C9 witness: a registry holding only `cbTripped`, observed at time 11
when its effective state is HALF_OPEN. -/
theorem C9_half_open_unlisted_witness :
    cbTripped ∉ CircuitBreakerMonitor.get_open [cbTripped] 11 ∧
    cbTripped ∉ CircuitBreakerMonitor.get_closed [cbTripped] 11 ∧
    CircuitBreakerMonitor.all_closed [cbTripped] 11 = true :=
  C9_half_open_unlisted [cbTripped] 11 cbTripped (List.mem_singleton.mpr rfl)
    (by decide) (fun c hc => by rw [List.mem_singleton.mp hc]; decide)

/-- C10: falsy constructor arguments — threshold 0, timeout 0, an empty
iterable of exception types — are silently replaced by the class defaults:
threshold 5, timeout 30, and the match-all `Exception` predicate, which
classifies every exception class as a failure. -/
theorem C10_falsy_defaults :
    CircuitBreaker.init (some 0) (some 0) (some (.excList [])) none none 0 =
      .ok { failure_threshold := 5, recovery_timeout := 30,
            is_failure := fun thrown_type _ => issubclass thrown_type .Exception,
            fallback_function := none, name := none, last_failure := none,
            failure_count := 0, rawState := STATE_CLOSED, openedAt := 0 } ∧
    ∀ t : ExcClass, issubclass t .Exception = true := by
  refine ⟨rfl, ?_⟩
  intro t
  cases t <;> rfl
